import Mathlib

/-!
rosbag2_composable_recorder : the `ComposableRecorder` node

A shallow embedding of `src/composable_recorder.cpp`:

* `get_time_stamp` (lines 27-34), as a function of the broken-down local time
  that `std::localtime` hands to `std::put_time`;
* the constructor `ComposableRecorder::ComposableRecorder` (lines 36-92), as a
  function of the parameter overrides of the node, of the clock, of
  `rclcpp::expand_topic_or_service_name` (which may throw) and of the outcome
  of the base-class `record()`;
* the two service handlers `startRecording` (lines 94-117) and `stopRecording`
  (lines 119-142), as functions of the object, of the response object passed
  in and of the outcome of the base-class `record()` / `stop()`.

The base class `rosbag2_transport::Recorder` is an external library.  Its
`record()` and `stop()` are represented by their outcome (an `Outcome`), and
every invocation is appended to the ghost field `calls` of the object, so
that "is invoked", "is not invoked" and "exactly once" can be stated.
-/

namespace rosbag2_composable_recorder

/-! ## Time stamp -/

/-- The fields of `struct tm` read by the conversions `%Y %m %d %H %M %S`.
`tm_year` counts years since 1900 and `tm_mon` months since January, as in
`<ctime>`.  The clock is `system_clock::now()`: the fields are naturals. -/
structure Tm where
  tm_year : Nat
  tm_mon : Nat
  tm_mday : Nat
  tm_hour : Nat
  tm_min : Nat
  tm_sec : Nat
  deriving DecidableEq, Repr

/-- A decimal number written with at least two digits, zero padded
(the conversions `%m %d %H %M %S`). -/
def pad2 (n : Nat) : List Char :=
  if n < 10 then '0' :: (toString n).toList else (toString n).toList

/-- One conversion specifier of `std::put_time`; the ones the recorder uses.
Any other character after `%` is kept as written. -/
def conversion (t : Tm) (c : Char) : List Char :=
  if c = 'Y' then (toString (t.tm_year + 1900)).toList
  else if c = 'm' then pad2 (t.tm_mon + 1)
  else if c = 'd' then pad2 t.tm_mday
  else if c = 'H' then pad2 t.tm_hour
  else if c = 'M' then pad2 t.tm_min
  else if c = 'S' then pad2 t.tm_sec
  else ['%', c]

/-- The characters `std::put_time(&t, fmt)` writes: conversions are
replaced, ordinary characters are copied. -/
def put_time (t : Tm) : List Char → List Char
  | [] => []
  | [c] => [c]
  | c :: d :: rest =>
    if c = '%' then conversion t d ++ put_time t rest
    else c :: put_time t (d :: rest)

/-- `get_time_stamp()` (lines 27-34), given the local time `t_now` that
`std::localtime` returns for `system_clock::now()`. -/
def get_time_stamp (t_now : Tm) : String :=
  String.mk (put_time t_now "%Y-%m-%d-%H-%M-%S".toList)

/-! ## The base class and the response -/

/-- How a call of the base-class `record()` or `stop()` ends. -/
inductive Outcome where
  /-- the call returns normally -/
  | completed
  /-- the call throws `std::runtime_error` (or a class derived from it);
  `what` is the text of `e.what()` -/
  | runtime_error (what : String)
  /-- the call throws an exception whose type is not derived from
  `std::runtime_error` (`std::invalid_argument`, `std::bad_alloc`, ...) -/
  | other_exception
  deriving DecidableEq, Repr

/-- An invocation of a base-class operation, with how it ended. -/
inductive BaseCall where
  | record (o : Outcome)
  | stop (o : Outcome)
  deriving DecidableEq, Repr

/-- The response of `std_srvs::srv::Trigger`. -/
structure Response where
  success : Bool
  message : String
  deriving DecidableEq, Repr

/-! ## The node -/

/-- The members of `rosbag2_storage::StorageOptions` the constructor sets. -/
structure StorageOptions where
  uri : String
  storage_id : String
  /-- a `uint64_t` -/
  max_cache_size : Nat
  storage_preset_profile : String
  deriving DecidableEq, Repr

/-- The members of `rosbag2_transport::RecordOptions` the constructor sets. -/
structure RecordOptions where
  all : Bool
  is_discovery_disabled : Bool
  rmw_serialization_format : String
  topic_polling_interval_ms : Nat
  topics : List String
  compression_mode : String
  compression_format : String
  deriving DecidableEq, Repr

/-- The object state.  `start_srv_` / `stop_srv_` hold the name of the
service when it has been created and `none` while the pointer is null.
`declared` lists the parameters declared on the node so far, and `calls` the
invocations of the base-class `record()` / `stop()` so far, oldest first
(ghost state). -/
structure ComposableRecorder where
  mcap_ : Bool
  storage_options_ : StorageOptions
  record_options_ : RecordOptions
  stop_discovery_ : Bool
  isRecording_ : Bool
  start_srv_ : Option String
  stop_srv_ : Option String
  declared : List String
  calls : List BaseCall
  deriving DecidableEq, Repr

/-- Modelled from the spec: the initial value of the member `isRecording_`,
which is declared in `composable_recorder.hpp` (not among the sources).  The
spec names `Idle` as the initial state of a session. -/
def isRecording_init : Bool := false

/-- The parameter overrides given to the node; `none` is a parameter left
unset, for which `declare_parameter` returns its default. -/
structure Parameters where
  mcap_use_mcap : Option Bool := none
  mcap_storage_preset_profile : Option String := none
  storage_id : Option String := none
  /-- an integer parameter: an `int64_t` -/
  max_cache_size : Option Int := none
  bag_name : Option String := none
  bag_prefix : Option String := none
  record_all : Option Bool := none
  disable_discovery : Option Bool := none
  serialization_format : Option String := none
  topics : Option (List String) := none
  compression_mode : Option String := none
  compression_format : Option String := none
  start_recording_immediately : Option Bool := none
  deriving DecidableEq, Repr

/-- `declare_parameter<T>(name, default)`: the override when there is one,
the default otherwise. -/
def declare_parameter {α : Type} (override : Option α) (default : α) : α :=
  override.getD default

/-- The conversion of a signed integer to `uint64_t` (the assignment of
line 53): the value modulo `2 ^ 64`. -/
def to_uint64 (v : Int) : Nat :=
  (v % 2 ^ 64).toNat

/-- What the constructor reads from outside the object. -/
structure Env where
  /-- the parameter overrides -/
  params : Parameters
  /-- local time at the first call of `get_time_stamp` (line 55) -/
  t_now : Tm
  /-- local time at the call of `get_time_stamp` on line 59 -/
  t_later : Tm
  /-- `rclcpp::expand_topic_or_service_name` for this node name and namespace:
  the expanded name, or `none` when the call throws (an invalid topic name) -/
  expand_topic_or_service_name : String → Option String
  /-- how `record()` ends if the constructor invokes it -/
  record : Outcome

/-- How a member function ends: it returns, or an exception leaves it. -/
inductive Exit where
  | returned
  | propagated
  deriving DecidableEq, Repr

/-- The result of the constructor: the object as the constructor left it
and how the constructor ended. -/
structure Constructed where
  self : ComposableRecorder
  exit : Exit
  deriving DecidableEq, Repr

/-- The object when the constructor body is entered: the base class was
built with default `StorageOptions` and `RecordOptions`. -/
def ComposableRecorder.base : ComposableRecorder :=
  { mcap_ := false
    storage_options_ :=
      { uri := "", storage_id := "", max_cache_size := 0, storage_preset_profile := "" }
    record_options_ :=
      { all := false, is_discovery_disabled := false, rmw_serialization_format := "",
        topic_polling_interval_ms := 100, topics := [], compression_mode := "",
        compression_format := "" }
    stop_discovery_ := false
    isRecording_ := isRecording_init
    start_srv_ := none
    stop_srv_ := none
    declared := []
    calls := [] }

/-- Lines 44-53 of the constructor: the storage options but the uri. -/
def ComposableRecorder.set_storage (p : Parameters) (self : ComposableRecorder) :
    ComposableRecorder :=
  let mcap := declare_parameter p.mcap_use_mcap false
  let self := { self with mcap_ := mcap, declared := self.declared ++ ["mcap.use_mcap"] }
  let self :=
    if mcap then
      { self with
        storage_options_ := { self.storage_options_ with
          storage_preset_profile :=
            declare_parameter p.mcap_storage_preset_profile "zstd_fast" }
        declared := self.declared ++ ["mcap.storage_preset_profile"] }
    else self
  { self with
    storage_options_ := { self.storage_options_ with
      storage_id := declare_parameter p.storage_id "sqlite3"
      max_cache_size := to_uint64 (declare_parameter p.max_cache_size (100 * 1024 * 1024)) }
    declared := self.declared ++ ["storage_id", "max_cache_size"] }

/-- Lines 55-60 of the constructor: the output path. -/
def ComposableRecorder.set_uri (e : Env) (self : ComposableRecorder) : ComposableRecorder :=
  let bag_name : String := declare_parameter e.params.bag_name "rosbag2_" ++ get_time_stamp e.t_now
  let self := { self with declared := self.declared ++ ["bag_name"] }
  if bag_name ≠ "" then
    { self with storage_options_ := { self.storage_options_ with uri := bag_name } }
  else
    { self with
      storage_options_ := { self.storage_options_ with
        uri := declare_parameter e.params.bag_prefix "rosbag2_" ++ get_time_stamp e.t_later }
      declared := self.declared ++ ["bag_prefix"] }

/-- The loop of lines 73-76: every topic is replaced by its expansion, in
order.  The first topic whose expansion throws ends the loop, the exception
leaving it; the topics from that one on are as they were. -/
def expand_topics (expand : String → Option String) : List String → List String × Exit
  | [] => ([], Exit.returned)
  | topic :: rest =>
    match expand topic with
    | none => (topic :: rest, Exit.propagated)
    | some expanded =>
      (expanded :: (expand_topics expand rest).1, (expand_topics expand rest).2)

/-- Lines 62-78 of the constructor: the recorder options.  An exception
thrown in the loop of lines 73-76 leaves the constructor, and line 78 is not
reached. -/
def ComposableRecorder.set_record_options (e : Env) (self : ComposableRecorder) :
    Constructed :=
  let p := e.params
  let topics := declare_parameter p.topics []
  let self := { self with
    record_options_ :=
      { all := declare_parameter p.record_all false
        is_discovery_disabled := declare_parameter p.disable_discovery true
        rmw_serialization_format := declare_parameter p.serialization_format "cdr"
        topic_polling_interval_ms := 100
        topics := (expand_topics e.expand_topic_or_service_name topics).1
        compression_mode := declare_parameter p.compression_mode "file"
        compression_format := declare_parameter p.compression_format "zstd" }
    declared := self.declared ++
      ["record_all", "disable_discovery", "serialization_format", "topics",
       "compression_mode", "compression_format"] }
  match (expand_topics e.expand_topic_or_service_name topics).2 with
  | .propagated => { self := self, exit := .propagated }
  | .returned =>
    { self := { self with stop_discovery_ := self.record_options_.is_discovery_disabled }
      exit := .returned }

/-- Lines 80-91 of the constructor: the start at once, or the two services. -/
def ComposableRecorder.start_or_serve (e : Env) (self : ComposableRecorder) : Constructed :=
  let self := { self with declared := self.declared ++ ["start_recording_immediately"] }
  if declare_parameter e.params.start_recording_immediately false then
    let self := { self with calls := self.calls ++ [BaseCall.record e.record] }
    match e.record with
    | .completed => { self := self, exit := .returned }
    | _ => { self := self, exit := .propagated }
  else
    { self := { self with
        start_srv_ := some "start_recording"
        stop_srv_ := some "stop_recording" }
      exit := .returned }

/-- The constructor `ComposableRecorder::ComposableRecorder` (lines 36-92).
Nothing in it catches an exception: one thrown by the expansion of a topic or
by `record()` leaves the constructor. -/
def ComposableRecorder.new (e : Env) : Constructed :=
  let self := ComposableRecorder.base
  let self := self.set_storage e.params
  let self := self.set_uri e
  let options := self.set_record_options e
  match options.exit with
  | .propagated => options
  | .returned => options.self.start_or_serve e

/-! ## The service handlers -/

/-- The result of a handler: the object and the response object after the
call, and the value returned (`none` when an exception left the handler). -/
structure Handled where
  self : ComposableRecorder
  res : Response
  ret : Option Bool
  deriving DecidableEq, Repr

/-- `ComposableRecorder::startRecording` (lines 94-117).  `record` is how the
base-class `record()` ends if the handler invokes it. -/
def ComposableRecorder.startRecording (self : ComposableRecorder) (res : Response)
    (record : Outcome) : Handled :=
  let res := { res with success := false }
  if self.isRecording_ then
    { self := self, res := { res with message := "already recording!" }, ret := some true }
  else
    let self := { self with calls := self.calls ++ [BaseCall.record record] }
    match record with
    | .completed =>
      { self := { self with isRecording_ := true }
        res := { success := true, message := "started recoding!" }
        ret := some true }
    | .runtime_error what =>
      { self := self
        res := { res with message := "runtime error occurred: " ++ what }
        ret := some true }
    | .other_exception => { self := self, res := res, ret := none }

/-- `ComposableRecorder::stopRecording` (lines 119-142).  `stop` is how the
base-class `stop()` ends if the handler invokes it. -/
def ComposableRecorder.stopRecording (self : ComposableRecorder) (res : Response)
    (stop : Outcome) : Handled :=
  let res := { res with success := false }
  if self.isRecording_ then
    let self := { self with calls := self.calls ++ [BaseCall.stop stop] }
    match stop with
    | .completed =>
      { self := { self with isRecording_ := false }
        res := { success := true, message := "stopped recording!" }
        ret := some true }
    | .runtime_error what =>
      { self := self
        res := { res with message := "runtime error occurred: " ++ what }
        ret := some true }
    | .other_exception => { self := self, res := res, ret := none }
  else
    { self := self, res := { res with message := "not recording!" }, ret := some true }

/-! ## Requests reaching the node -/

/-- The two services of the control surface. -/
inductive Request where
  | start
  | stop
  deriving DecidableEq, Repr

/-- A request that was dispatched to its handler: the response object after
the handler and the value the handler returned. -/
structure Exchange where
  req : Request
  res : Response
  ret : Option Bool
  deriving DecidableEq, Repr

/-- A request is handed to the handler bound to its service, with a fresh
response object, when that service has been created (lines 83-90); there is
nobody to answer it otherwise. -/
def ComposableRecorder.dispatch (self : ComposableRecorder) (rq : Request) (o : Outcome) :
    Option Handled :=
  match rq with
  | .start =>
    if self.start_srv_.isSome then
      some (self.startRecording { success := false, message := "" } o)
    else none
  | .stop =>
    if self.stop_srv_.isSome then
      some (self.stopRecording { success := false, message := "" } o)
    else none

/-- The node serving a sequence of requests, one after the other.  Each
request comes with the outcome the base-class operation has if the handler
invokes it.  When an exception leaves a handler the object stays as it was at
the throw and the next request is served; a caller that stops there has
served a prefix of the sequence. -/
def ComposableRecorder.serve :
    ComposableRecorder → List (Request × Outcome) → ComposableRecorder × List Exchange
  | self, [] => (self, [])
  | self, (rq, o) :: rest =>
    match self.dispatch rq o with
    | none => self.serve rest
    | some h =>
      ((h.self.serve rest).1, { req := rq, res := h.res, ret := h.ret } :: (h.self.serve rest).2)

/-- Number of `record()` calls that completed. -/
def completedRecords (calls : List BaseCall) : Nat :=
  calls.count (BaseCall.record Outcome.completed)

/-- Number of `stop()` calls that completed. -/
def completedStops (calls : List BaseCall) : Nat :=
  calls.count (BaseCall.stop Outcome.completed)

/-- The requests answered with `success = true`, in order. -/
def successes (xs : List Exchange) : List Request :=
  (xs.filter (fun x => x.res.success)).map (fun x => x.req)

/-- The flag `recording` agrees with the calls made so far: it is set when
one more `record()` than `stop()` has completed and clear when as many have,
every `record()` was invoked with as many completed `record()` as `stop()`
before it, and every `stop()` with one more. -/
def Balanced (calls : List BaseCall) (recording : Bool) : Prop :=
  (recording = true → completedRecords calls = completedStops calls + 1) ∧
  (recording = false → completedRecords calls = completedStops calls) ∧
  (∀ pre o post, calls = pre ++ BaseCall.record o :: post →
    completedRecords pre = completedStops pre) ∧
  (∀ pre o post, calls = pre ++ BaseCall.stop o :: post →
    completedRecords pre = completedStops pre + 1)

/-- The requests alternate, the first one being a stop when `recording` is
set and a start otherwise. -/
def alternating : Bool → List Request → Prop
  | _, [] => True
  | recording, r :: rs =>
    r = (if recording then Request.stop else Request.start) ∧ alternating (!recording) rs

/-! ## Sample inputs -/

/-- Second of January 2024 (a `tm_mon` of 0 is January), 03:04:05. -/
def sampleTime : Tm :=
  { tm_year := 124, tm_mon := 0, tm_mday := 2, tm_hour := 3, tm_min := 4, tm_sec := 5 }

/-- An environment with the given parameter overrides, in which `record()`
completes and the empty topic name is the invalid one. -/
def sampleEnv (p : Parameters) : Env :=
  { params := p, t_now := sampleTime, t_later := sampleTime,
    expand_topic_or_service_name := fun s => if s = "" then none else some ("/" ++ s),
    record := Outcome.completed }

/-- The parameters `record_all = true`, `disable_discovery = true` and
`start_recording_immediately = true`, with one topic. -/
def recordAllAtOnce : Parameters :=
  { record_all := some true, disable_discovery := some true, topics := some ["chatter"],
    start_recording_immediately := some true }

/-- A node built with no parameter override: idle, both services created. -/
def idleNode : ComposableRecorder := (ComposableRecorder.new (sampleEnv {})).self

/-- A node built with `record_all = true` and `disable_discovery = true`. -/
def recordAllNode : ComposableRecorder :=
  (ComposableRecorder.new
    (sampleEnv { record_all := some true, disable_discovery := some true })).self

/-- A run of requests: a start that fails, two starts, two stops, a start. -/
def sampleRequests : List (Request × Outcome) :=
  [(Request.start, Outcome.runtime_error "disk"), (Request.start, Outcome.completed),
   (Request.start, Outcome.completed), (Request.stop, Outcome.completed),
   (Request.stop, Outcome.completed), (Request.start, Outcome.completed)]

/-- The constructor run with `start_recording_immediately = true`. -/
def startedAtOnce : Constructed :=
  ComposableRecorder.new (sampleEnv { start_recording_immediately := some true })

/-- The node `idleNode` after a start request that succeeded. -/
def recordingNode : ComposableRecorder :=
  (idleNode.startRecording { success := false, message := "" } Outcome.completed).self

/-! ## The handlers -/

open ComposableRecorder

/-- C1: when `isRecording_` is set, `startRecording` answers
`success = false` with the message "already recording!", returns, invokes no
base-class operation and leaves the object as it was; so a start that
follows a start that set the flag adds no second `record()` call. -/
theorem startRecording_while_recording (self : ComposableRecorder) (res : Response)
    (record : Outcome) (h : self.isRecording_ = true) :
    self.startRecording res record =
        { self := self, res := { success := false, message := "already recording!" },
          ret := some true } ∧
      (self.startRecording res record).self.calls = self.calls ∧
      (self.startRecording res record).self.isRecording_ = true ∧
      ∀ (s0 : ComposableRecorder) (r0 : Response) (o0 : Outcome),
        s0.isRecording_ = false → (s0.startRecording r0 o0).self = self →
        (self.startRecording res record).self.calls =
          s0.calls ++ [BaseCall.record Outcome.completed] := by
  have key : self.startRecording res record =
      { self := self, res := { success := false, message := "already recording!" },
        ret := some true } := by
    simp [startRecording, h]
  refine ⟨key, by rw [key], by rw [key]; exact h, ?_⟩
  intro s0 r0 o0 h0 hs
  rw [key]
  subst hs
  cases o0 <;> simp_all [startRecording]

/-- C1 at the sample node that is recording. -/
theorem startRecording_while_recording_witness :
    recordingNode.startRecording { success := false, message := "" } Outcome.completed =
      { self := recordingNode, res := { success := false, message := "already recording!" },
        ret := some true } :=
  (startRecording_while_recording recordingNode _ _ (by decide)).1

/-- C2: when `isRecording_` is clear, `stopRecording` answers
`success = false` with the message "not recording!", invokes no base-class
operation and leaves the object as it was. -/
theorem stopRecording_while_idle (self : ComposableRecorder) (res : Response)
    (stop : Outcome) (h : self.isRecording_ = false) :
    self.stopRecording res stop =
        { self := self, res := { success := false, message := "not recording!" },
          ret := some true } ∧
      (self.stopRecording res stop).self.calls = self.calls ∧
      (self.stopRecording res stop).self.isRecording_ = false := by
  have key : self.stopRecording res stop =
      { self := self, res := { success := false, message := "not recording!" },
        ret := some true } := by
    simp [stopRecording, h]
  exact ⟨key, by rw [key], by rw [key]; exact h⟩

/-- C2 at the idle sample node. -/
theorem stopRecording_while_idle_witness :
    idleNode.stopRecording { success := false, message := "" } Outcome.completed =
      { self := idleNode, res := { success := false, message := "not recording!" },
        ret := some true } :=
  (stopRecording_while_idle idleNode _ _ (by decide)).1

/-- C3: when `isRecording_` is clear and `record()` completes,
`startRecording` invokes `record()` once, sets `isRecording_` and answers
`success = true`; and `startRecording` answers `success = true` only when the
flag was clear and `record()` completed. -/
theorem startRecording_from_idle (self : ComposableRecorder) (res : Response)
    (h : self.isRecording_ = false) :
    (self.startRecording res Outcome.completed).self.calls =
        self.calls ++ [BaseCall.record Outcome.completed] ∧
      (self.startRecording res Outcome.completed).self.isRecording_ = true ∧
      (self.startRecording res Outcome.completed).res.success = true ∧
      (self.startRecording res Outcome.completed).ret = some true ∧
      ∀ (s : ComposableRecorder) (r : Response) (o : Outcome),
        (s.startRecording r o).res.success = true →
          s.isRecording_ = false ∧ o = Outcome.completed ∧
            (s.startRecording r o).self.isRecording_ = true := by
  refine ⟨by simp [startRecording, h], by simp [startRecording, h],
    by simp [startRecording, h], by simp [startRecording, h], ?_⟩
  intro s r o hs
  cases hrec : s.isRecording_ <;> cases o <;> simp_all [startRecording]

/-- C3 at the idle sample node. -/
theorem startRecording_from_idle_witness :
    (idleNode.startRecording { success := false, message := "" } Outcome.completed).self.calls =
      idleNode.calls ++ [BaseCall.record Outcome.completed] :=
  (startRecording_from_idle idleNode _ (by decide)).1

/-- C4, as amended: when `isRecording_` is clear and `record()` throws a
`std::runtime_error`, `startRecording` returns, answers `success = false` with
the message "runtime error occurred: " followed by the text of the error,
and leaves `isRecording_` clear, so that a later `startRecording` invokes
`record()` again.  An exception of another type leaves the handler, with
`isRecording_` clear as well. -/
theorem startRecording_runtime_error (self : ComposableRecorder) (res : Response)
    (what : String) (h : self.isRecording_ = false) :
    (self.startRecording res (Outcome.runtime_error what)).ret = some true ∧
      (self.startRecording res (Outcome.runtime_error what)).res.success = false ∧
      (self.startRecording res (Outcome.runtime_error what)).res.message =
        "runtime error occurred: " ++ what ∧
      (self.startRecording res (Outcome.runtime_error what)).self.isRecording_ = false ∧
      (self.startRecording res (Outcome.runtime_error what)).self.calls =
        self.calls ++ [BaseCall.record (Outcome.runtime_error what)] ∧
      (∀ (res2 : Response) (o : Outcome),
        ((self.startRecording res (Outcome.runtime_error what)).self.startRecording res2 o).self.calls
          = (self.startRecording res (Outcome.runtime_error what)).self.calls ++
              [BaseCall.record o]) ∧
      (self.startRecording res Outcome.other_exception).ret = none ∧
      (self.startRecording res Outcome.other_exception).self.isRecording_ = false := by
  refine ⟨by simp [startRecording, h], by simp [startRecording, h],
    by simp [startRecording, h], by simp [startRecording, h],
    by simp [startRecording, h], ?_, by simp [startRecording, h],
    by simp [startRecording, h]⟩
  intro res2 o
  cases o <;> simp [startRecording, h]

/-- C4 fails as stated: an exception from `record()` that is not a
`std::runtime_error` leaves the handler, which returns nothing. -/
theorem startRecording_propagates_other_exception :
    idleNode.isRecording_ = false ∧
      (idleNode.startRecording { success := false, message := "" }
        Outcome.other_exception).ret = none := by
  decide

/-- The amended C4 at the idle sample node. -/
theorem startRecording_runtime_error_witness :
    (idleNode.startRecording { success := false, message := "" }
        (Outcome.runtime_error "No serialization format specified!")).res.message =
      "runtime error occurred: " ++ "No serialization format specified!" :=
  (startRecording_runtime_error idleNode _ _ (by decide)).2.2.1

/-- C5: when `isRecording_` is set and `stop()` completes, `stopRecording`
invokes `stop()` once, clears `isRecording_` and answers `success = true`;
when `stop()` throws a `std::runtime_error` it answers `success = false` and
the flag stays set; and `stopRecording` answers `success = true` only when
the flag was set and `stop()` completed. -/
theorem stopRecording_while_recording (self : ComposableRecorder) (res : Response)
    (h : self.isRecording_ = true) :
    ((self.stopRecording res Outcome.completed).self.calls =
          self.calls ++ [BaseCall.stop Outcome.completed] ∧
        (self.stopRecording res Outcome.completed).self.isRecording_ = false ∧
        (self.stopRecording res Outcome.completed).res.success = true ∧
        (self.stopRecording res Outcome.completed).ret = some true) ∧
      (∀ what : String,
        (self.stopRecording res (Outcome.runtime_error what)).res.success = false ∧
        (self.stopRecording res (Outcome.runtime_error what)).self.isRecording_ = true) ∧
      ∀ (s : ComposableRecorder) (r : Response) (o : Outcome),
        (s.stopRecording r o).res.success = true →
          s.isRecording_ = true ∧ o = Outcome.completed := by
  refine ⟨by simp [stopRecording, h], fun what => by simp [stopRecording, h], ?_⟩
  intro s r o hs
  cases hrec : s.isRecording_ <;> cases o <;> simp_all [stopRecording]

/-- C5 at the sample node that is recording. -/
theorem stopRecording_while_recording_witness :
    (recordingNode.stopRecording { success := false, message := "" } Outcome.completed
      ).self.isRecording_ = false :=
  (stopRecording_while_recording recordingNode _ (by decide)).1.2.1

/-! ### The output path -/

/-- The time stamp always holds the four separators of the format. -/
theorem get_time_stamp_ne_empty (t : Tm) : get_time_stamp t ≠ "" := by
  have hfmt : "%Y-%m-%d-%H-%M-%S".toList =
      ['%', 'Y', '-', '%', 'm', '-', '%', 'd', '-', '%', 'H', '-', '%', 'M', '-', '%', 'S'] :=
    rfl
  intro h
  have h2 := congrArg String.data h
  rw [get_time_stamp, hfmt] at h2
  simp [put_time] at h2

/-- A string that ends with a time stamp is not empty. -/
theorem append_time_stamp_ne_empty (s : String) (t : Tm) : s ++ get_time_stamp t ≠ "" := by
  intro h
  have h2 : (s ++ get_time_stamp t).data = [] := congrArg String.data h
  rw [String.data_append] at h2
  exact get_time_stamp_ne_empty t (String.ext (List.append_eq_nil.mp h2).2)

/-- Lines 55-60 always take the first branch. -/
theorem set_uri_eq (e : Env) (self : ComposableRecorder) :
    self.set_uri e =
      { self with
        storage_options_ := { self.storage_options_ with
          uri := declare_parameter e.params.bag_name "rosbag2_" ++ get_time_stamp e.t_now }
        declared := self.declared ++ ["bag_name"] } := by
  simp [set_uri, append_time_stamp_ne_empty]

/-- The loop of lines 73-76 ends normally exactly when every topic expands. -/
theorem expand_topics_returned (expand : String → Option String) (topics : List String) :
    (expand_topics expand topics).2 = Exit.returned ↔
      ∀ topic ∈ topics, (expand topic).isSome = true := by
  induction topics with
  | nil => simp [expand_topics]
  | cons topic rest ih =>
    cases h : expand topic with
    | none => simp [expand_topics, h]
    | some expanded => simp [expand_topics, h, ih]

/-- Lines 62-78 end as the loop of lines 73-76 does. -/
theorem set_record_options_exit (e : Env) (self : ComposableRecorder) :
    (self.set_record_options e).exit =
      (expand_topics e.expand_topic_or_service_name (declare_parameter e.params.topics [])).2 := by
  cases h : (expand_topics e.expand_topic_or_service_name
    (declare_parameter e.params.topics [])).2 <;> simp [set_record_options, h]

/-- What lines 62-78 leave in the object, however they end. -/
theorem set_record_options_fields (e : Env) (self : ComposableRecorder) :
    (self.set_record_options e).self.storage_options_ = self.storage_options_ ∧
      (self.set_record_options e).self.calls = self.calls ∧
      (self.set_record_options e).self.start_srv_ = self.start_srv_ ∧
      (self.set_record_options e).self.stop_srv_ = self.stop_srv_ ∧
      (self.set_record_options e).self.isRecording_ = self.isRecording_ ∧
      (self.set_record_options e).self.declared = self.declared ++
        ["record_all", "disable_discovery", "serialization_format", "topics",
         "compression_mode", "compression_format"] ∧
      (self.set_record_options e).self.record_options_.all =
        declare_parameter e.params.record_all false ∧
      (self.set_record_options e).self.record_options_.is_discovery_disabled =
        declare_parameter e.params.disable_discovery true := by
  cases h : (expand_topics e.expand_topic_or_service_name
    (declare_parameter e.params.topics [])).2 <;> simp [set_record_options, h]

/-- What lines 80-91 leave untouched. -/
theorem start_or_serve_fields (e : Env) (self : ComposableRecorder) :
    (self.start_or_serve e).self.storage_options_ = self.storage_options_ ∧
      (self.start_or_serve e).self.isRecording_ = self.isRecording_ ∧
      (self.start_or_serve e).self.declared = self.declared ++ ["start_recording_immediately"] ∧
      (self.start_or_serve e).self.record_options_ = self.record_options_ := by
  unfold start_or_serve
  split
  · split <;> exact ⟨rfl, rfl, rfl, rfl⟩
  · exact ⟨rfl, rfl, rfl, rfl⟩

/-- Lines 80-91 when the start is at once: one `record()` call, no service
created, and they end normally exactly when `record()` completes. -/
theorem start_or_serve_immediate (e : Env) (self : ComposableRecorder)
    (h : declare_parameter e.params.start_recording_immediately false = true) :
    (self.start_or_serve e).self.calls = self.calls ++ [BaseCall.record e.record] ∧
      ((self.start_or_serve e).exit = Exit.returned ↔ e.record = Outcome.completed) ∧
      (self.start_or_serve e).self.start_srv_ = self.start_srv_ ∧
      (self.start_or_serve e).self.stop_srv_ = self.stop_srv_ := by
  unfold start_or_serve
  rw [if_pos h]
  split
  · simp_all
  · refine ⟨rfl, ?_, rfl, rfl⟩
    simp_all

/-- Lines 80-91 when the start is not at once: both services, no call. -/
theorem start_or_serve_services (e : Env) (self : ComposableRecorder)
    (h : declare_parameter e.params.start_recording_immediately false = false) :
    (self.start_or_serve e).self.calls = self.calls ∧
      (self.start_or_serve e).exit = Exit.returned ∧
      (self.start_or_serve e).self.start_srv_ = some "start_recording" ∧
      (self.start_or_serve e).self.stop_srv_ = some "stop_recording" := by
  unfold start_or_serve
  simp [h]

/-- The constructor, by how lines 62-78 end. -/
theorem new_eq (e : Env) :
    (((ComposableRecorder.base.set_storage e.params).set_uri e).set_record_options e).exit
          = Exit.propagated ∧
        ComposableRecorder.new e =
          ((ComposableRecorder.base.set_storage e.params).set_uri e).set_record_options e ∨
      (((ComposableRecorder.base.set_storage e.params).set_uri e).set_record_options e).exit
          = Exit.returned ∧
        ComposableRecorder.new e =
          (((ComposableRecorder.base.set_storage e.params).set_uri e).set_record_options
            e).self.start_or_serve e := by
  cases h : (((ComposableRecorder.base.set_storage e.params).set_uri e).set_record_options
    e).exit <;> simp [ComposableRecorder.new, h]

/-- The fields of the object when line 62 is reached. -/
theorem set_uri_fields (e : Env) :
    ((ComposableRecorder.base.set_storage e.params).set_uri e).calls = [] ∧
      ((ComposableRecorder.base.set_storage e.params).set_uri e).start_srv_ = none ∧
      ((ComposableRecorder.base.set_storage e.params).set_uri e).stop_srv_ = none ∧
      ((ComposableRecorder.base.set_storage e.params).set_uri e).isRecording_ = false ∧
      "bag_prefix" ∉ ((ComposableRecorder.base.set_storage e.params).set_uri e).declared ∧
      ((ComposableRecorder.base.set_storage e.params).set_uri e).storage_options_.uri =
        declare_parameter e.params.bag_name "rosbag2_" ++ get_time_stamp e.t_now := by
  rw [set_uri_eq]
  by_cases hm : declare_parameter e.params.mcap_use_mcap false = true <;>
    simp [set_storage, ComposableRecorder.base, hm, isRecording_init]

/-- The output path the constructor leaves in the object. -/
theorem new_uri (e : Env) :
    (ComposableRecorder.new e).self.storage_options_.uri =
      declare_parameter e.params.bag_name "rosbag2_" ++ get_time_stamp e.t_now := by
  obtain ⟨-, -, -, -, -, hu⟩ := set_uri_fields e
  rcases new_eq e with ⟨-, h⟩ | ⟨-, h⟩
  · rw [h, (set_record_options_fields e _).1, hu]
  · rw [h, (start_or_serve_fields e _).1, (set_record_options_fields e _).1, hu]

/-- The constructor never declares the parameter `bag_prefix`. -/
theorem new_declared (e : Env) : "bag_prefix" ∉ (ComposableRecorder.new e).self.declared := by
  obtain ⟨-, -, -, -, hd, -⟩ := set_uri_fields e
  obtain ⟨-, -, -, -, -, hr, -⟩ := set_record_options_fields e
    ((ComposableRecorder.base.set_storage e.params).set_uri e)
  rcases new_eq e with ⟨-, h⟩ | ⟨-, h⟩
  · rw [h, hr]
    simp [hd]
  · rw [h, (start_or_serve_fields e _).2.2.1, hr]
    simp [hd]

/-- C10: the output path the constructor computes is the value of `bag_name`
(`rosbag2_` when unset) followed by the time stamp, also when `bag_name` is
set; the time stamp is not empty, so the path is not empty, the parameter
`bag_prefix` is never declared, and the path does not depend on it. -/
theorem output_path_is_bag_name_with_time_stamp (e : Env) :
    (ComposableRecorder.new e).self.storage_options_.uri =
        declare_parameter e.params.bag_name "rosbag2_" ++ get_time_stamp e.t_now ∧
      (e.params.bag_name = none →
        (ComposableRecorder.new e).self.storage_options_.uri =
          "rosbag2_" ++ get_time_stamp e.t_now) ∧
      (∀ name : String, e.params.bag_name = some name →
        (ComposableRecorder.new e).self.storage_options_.uri =
          name ++ get_time_stamp e.t_now) ∧
      get_time_stamp e.t_now ≠ "" ∧
      (ComposableRecorder.new e).self.storage_options_.uri ≠ "" ∧
      "bag_prefix" ∉ (ComposableRecorder.new e).self.declared ∧
      ∀ (prefix_value : Option String) (t : Tm),
        (ComposableRecorder.new
            { e with params := { e.params with bag_prefix := prefix_value }, t_later := t }
          ).self.storage_options_.uri =
          (ComposableRecorder.new e).self.storage_options_.uri := by
  refine ⟨new_uri e, ?_, ?_, get_time_stamp_ne_empty _, ?_, ?_, ?_⟩
  · intro h
    rw [new_uri, h]
    rfl
  · intro name h
    rw [new_uri, h]
    rfl
  · rw [new_uri]
    exact append_time_stamp_ne_empty _ _
  · exact new_declared e
  · intro prefix_value t
    rw [new_uri, new_uri]

/-- A node without services answers no request and is left as it was. -/
theorem serve_without_services (self : ComposableRecorder)
    (h1 : self.start_srv_ = none) (h2 : self.stop_srv_ = none)
    (reqs : List (Request × Outcome)) : self.serve reqs = (self, []) := by
  induction reqs with
  | nil => rfl
  | cons a rest ih =>
    obtain ⟨rq, o⟩ := a
    cases rq <;> simp [serve, dispatch, h1, h2, ih]

/-- C7 fails as stated: built with `start_recording_immediately = true`, the
node has invoked `record()` but has neither service, its flag `isRecording_`
is clear, and `stopRecording` answers `success = false` without invoking
`stop()`. -/
theorem start_immediately_no_services :
    startedAtOnce.exit = Exit.returned ∧
      startedAtOnce.self.calls = [BaseCall.record Outcome.completed] ∧
      startedAtOnce.self.start_srv_ = none ∧
      startedAtOnce.self.stop_srv_ = none ∧
      startedAtOnce.self.isRecording_ = false ∧
      (startedAtOnce.self.stopRecording { success := false, message := "" }
        Outcome.completed).res = { success := false, message := "not recording!" } ∧
      (startedAtOnce.self.stopRecording { success := false, message := "" }
        Outcome.completed).self.calls = [BaseCall.record Outcome.completed] := by
  decide

/-- The constructor when lines 62-78 end normally and the start is at once:
one `record()` call, no service, the flag `isRecording_` clear, and it
returns exactly when `record()` completes. -/
theorem new_immediate (e : Env)
    (h : declare_parameter e.params.start_recording_immediately false = true)
    (hloop : (((ComposableRecorder.base.set_storage e.params).set_uri e).set_record_options
      e).exit = Exit.returned) :
    (ComposableRecorder.new e).self.calls = [BaseCall.record e.record] ∧
      ((ComposableRecorder.new e).exit = Exit.returned ↔ e.record = Outcome.completed) ∧
      (ComposableRecorder.new e).self.start_srv_ = none ∧
      (ComposableRecorder.new e).self.stop_srv_ = none ∧
      (ComposableRecorder.new e).self.isRecording_ = false := by
  obtain ⟨c1, c2, c3, c4, -, -⟩ := set_uri_fields e
  obtain ⟨-, r1, r2, r3, r4, -⟩ := set_record_options_fields e
    ((ComposableRecorder.base.set_storage e.params).set_uri e)
  rcases new_eq e with ⟨hp, -⟩ | ⟨-, hn⟩
  · rw [hloop] at hp
    cases hp
  · obtain ⟨s1, s2, s3, s4⟩ := start_or_serve_immediate e
      (((ComposableRecorder.base.set_storage e.params).set_uri e).set_record_options e).self h
    rw [hn]
    refine ⟨by rw [s1, r1, c1]; rfl, s2, by rw [s3, r2, c2], by rw [s4, r3, c3], ?_⟩
    rw [(start_or_serve_fields e _).2.1, r4, c4]

/-- A topic name that does not expand ends the constructor at line 75:
the exception leaves it, `record()` is not invoked and no service is
created. -/
theorem new_invalid_topic (e : Env)
    (h : ¬ ∀ topic ∈ declare_parameter e.params.topics [],
      (e.expand_topic_or_service_name topic).isSome = true) :
    (ComposableRecorder.new e).exit = Exit.propagated ∧
      (ComposableRecorder.new e).self.calls = [] ∧
      (ComposableRecorder.new e).self.start_srv_ = none ∧
      (ComposableRecorder.new e).self.stop_srv_ = none := by
  obtain ⟨c1, c2, c3, -, -, -⟩ := set_uri_fields e
  obtain ⟨-, r1, r2, r3, -, -⟩ := set_record_options_fields e
    ((ComposableRecorder.base.set_storage e.params).set_uri e)
  have hx := set_record_options_exit e ((ComposableRecorder.base.set_storage e.params).set_uri e)
  rcases new_eq e with ⟨hp, hn⟩ | ⟨hr, -⟩
  · rw [hn]
    exact ⟨hp, by rw [r1, c1], by rw [r2, c2], by rw [r3, c3]⟩
  · rw [hx] at hr
    exact absurd ((expand_topics_returned _ _).mp hr) h

/-- When the constructor returns, lines 62-78 ended normally. -/
theorem new_returned (e : Env) (hret : (ComposableRecorder.new e).exit = Exit.returned) :
    (((ComposableRecorder.base.set_storage e.params).set_uri e).set_record_options
      e).exit = Exit.returned := by
  rcases new_eq e with ⟨hp, hn⟩ | ⟨hr, -⟩
  · rw [hn, hp] at hret
    cases hret
  · exact hr

/-- C7, as amended: when the node is constructed with
`start_recording_immediately = true`, `record()` has been invoked once at
construction, but neither service is created, so that no request is answered
afterwards, and the flag `isRecording_` is clear, so that `stopRecording`
answers `success = false` with "not recording!" and invokes nothing. -/
theorem start_immediately (e : Env)
    (h : declare_parameter e.params.start_recording_immediately false = true)
    (hret : (ComposableRecorder.new e).exit = Exit.returned) :
    (ComposableRecorder.new e).self.calls = [BaseCall.record Outcome.completed] ∧
      (ComposableRecorder.new e).self.start_srv_ = none ∧
      (ComposableRecorder.new e).self.stop_srv_ = none ∧
      (ComposableRecorder.new e).self.isRecording_ = false ∧
      (∀ reqs : List (Request × Outcome),
        (ComposableRecorder.new e).self.serve reqs = ((ComposableRecorder.new e).self, [])) ∧
      ∀ (res : Response) (stop : Outcome),
        (ComposableRecorder.new e).self.stopRecording res stop =
          { self := (ComposableRecorder.new e).self,
            res := { success := false, message := "not recording!" }, ret := some true } := by
  obtain ⟨hc, hx, h1, h2, hf⟩ := new_immediate e h (new_returned e hret)
  refine ⟨?_, h1, h2, hf, serve_without_services _ h1 h2, ?_⟩
  · rw [hc, hx.mp hret]
  · intro res stop
    simp [stopRecording, hf]

/-- The amended C7 at a sample environment. -/
theorem start_immediately_witness :
    startedAtOnce.self.calls = [BaseCall.record Outcome.completed] ∧
      startedAtOnce.self.isRecording_ = false :=
  ⟨(start_immediately (sampleEnv { start_recording_immediately := some true })
      (by decide) (by decide)).1,
    (start_immediately (sampleEnv { start_recording_immediately := some true })
      (by decide) (by decide)).2.2.2.1⟩

/-! ### `record_all` with discovery disabled -/

/-- C8 fails as stated: with `record_all = true` and
`disable_discovery = true` a start request is accepted when `record()`
completes, and so is the start at construction. -/
theorem record_all_without_discovery_accepted :
    recordAllNode.record_options_.all = true ∧
      recordAllNode.record_options_.is_discovery_disabled = true ∧
      ((recordAllNode.startRecording
          { success := false, message := "" } Outcome.completed).res.success = true) ∧
      ((recordAllNode.startRecording
          { success := false, message := "" } Outcome.completed).self.isRecording_ = true) ∧
      ((recordAllNode.startRecording
          { success := false, message := "" } Outcome.completed).self.calls
            = [BaseCall.record Outcome.completed]) ∧
      (ComposableRecorder.new (sampleEnv recordAllAtOnce)).self.record_options_.all = true ∧
      (ComposableRecorder.new (sampleEnv recordAllAtOnce)
        ).self.record_options_.is_discovery_disabled = true ∧
      (ComposableRecorder.new (sampleEnv recordAllAtOnce)).exit = Exit.returned ∧
      (ComposableRecorder.new (sampleEnv recordAllAtOnce)).self.calls =
        [BaseCall.record Outcome.completed] := by
  decide

/-- The record options the constructor leaves in the object. -/
theorem new_record_options (e : Env) :
    (ComposableRecorder.new e).self.record_options_.all =
        declare_parameter e.params.record_all false ∧
      (ComposableRecorder.new e).self.record_options_.is_discovery_disabled =
        declare_parameter e.params.disable_discovery true := by
  obtain ⟨-, -, -, -, -, -, ha, hd⟩ := set_record_options_fields e
    ((ComposableRecorder.base.set_storage e.params).set_uri e)
  rcases new_eq e with ⟨-, h⟩ | ⟨-, h⟩
  · rw [h]; exact ⟨ha, hd⟩
  · rw [h, (start_or_serve_fields e _).2.2.2]; exact ⟨ha, hd⟩

/-- C8, as amended: with `record_all = true` and `disable_discovery = true`
a start request made while idle invokes `record()`; it is accepted exactly
when `record()` completes, and a `std::runtime_error` from `record()` is the
only rejection, which leaves the node idle.  The start at construction,
reached when every topic name expands, invokes `record()` as well and the
constructor returns exactly when `record()` completes. -/
theorem record_all_without_discovery (self : ComposableRecorder) (res : Response)
    (o : Outcome) (hall : self.record_options_.all = true)
    (hdis : self.record_options_.is_discovery_disabled = true)
    (h : self.isRecording_ = false) :
    (self.startRecording res o).self.calls = self.calls ++ [BaseCall.record o] ∧
      ((self.startRecording res o).res.success = true ↔ o = Outcome.completed) ∧
      ((self.startRecording res o).self.isRecording_ = true ↔ o = Outcome.completed) ∧
      ((self.startRecording res o).ret = some true ∧
          (self.startRecording res o).res.success = false ↔
        ∃ what, o = Outcome.runtime_error what) ∧
      (self.startRecording res o).self.record_options_.all = true ∧
      (self.startRecording res o).self.record_options_.is_discovery_disabled = true ∧
      ∀ e : Env, declare_parameter e.params.record_all false = true →
        declare_parameter e.params.disable_discovery true = true →
        declare_parameter e.params.start_recording_immediately false = true →
        (∀ topic ∈ declare_parameter e.params.topics [],
          (e.expand_topic_or_service_name topic).isSome = true) →
          (ComposableRecorder.new e).self.record_options_.all = true ∧
          (ComposableRecorder.new e).self.record_options_.is_discovery_disabled = true ∧
          (ComposableRecorder.new e).self.calls = [BaseCall.record e.record] ∧
          ((ComposableRecorder.new e).exit = Exit.returned ↔ e.record = Outcome.completed) := by
  have hnew : ∀ e : Env, declare_parameter e.params.record_all false = true →
      declare_parameter e.params.disable_discovery true = true →
      declare_parameter e.params.start_recording_immediately false = true →
      (∀ topic ∈ declare_parameter e.params.topics [],
        (e.expand_topic_or_service_name topic).isSome = true) →
        (ComposableRecorder.new e).self.record_options_.all = true ∧
        (ComposableRecorder.new e).self.record_options_.is_discovery_disabled = true ∧
        (ComposableRecorder.new e).self.calls = [BaseCall.record e.record] ∧
        ((ComposableRecorder.new e).exit = Exit.returned ↔ e.record = Outcome.completed) := by
    intro e ha hd hi ht
    obtain ⟨r1, r2⟩ := new_record_options e
    have hloop := (set_record_options_exit e
      ((ComposableRecorder.base.set_storage e.params).set_uri e)).trans
        ((expand_topics_returned _ _).mpr ht)
    obtain ⟨hc, hx, -, -, -⟩ := new_immediate e hi hloop
    exact ⟨by rw [r1, ha], by rw [r2, hd], hc, hx⟩
  have hstart : (self.startRecording res o).self.calls = self.calls ++ [BaseCall.record o] ∧
      ((self.startRecording res o).res.success = true ↔ o = Outcome.completed) ∧
      ((self.startRecording res o).self.isRecording_ = true ↔ o = Outcome.completed) ∧
      ((self.startRecording res o).ret = some true ∧
          (self.startRecording res o).res.success = false ↔
        ∃ what, o = Outcome.runtime_error what) ∧
      (self.startRecording res o).self.record_options_.all = true ∧
      (self.startRecording res o).self.record_options_.is_discovery_disabled = true := by
    cases o <;> simp [startRecording, h, hall, hdis]
  obtain ⟨a1, a2, a3, a4, a5, a6⟩ := hstart
  exact ⟨a1, a2, a3, a4, a5, a6, hnew⟩

/-- The amended C8 at a node built with both options set, and at a
construction that starts at once. -/
theorem record_all_without_discovery_witness :
    (recordAllNode.startRecording
          { success := false, message := "" } (Outcome.runtime_error "no storage")).self.calls
        = recordAllNode.calls ++ [BaseCall.record (Outcome.runtime_error "no storage")] ∧
      (ComposableRecorder.new (sampleEnv recordAllAtOnce)).self.calls =
        [BaseCall.record (sampleEnv recordAllAtOnce).record] :=
  ⟨(record_all_without_discovery recordAllNode _ _ (by decide) (by decide) (by decide)).1,
    ((record_all_without_discovery recordAllNode { success := false, message := "" }
      Outcome.completed (by decide) (by decide) (by decide)).2.2.2.2.2.2
        (sampleEnv recordAllAtOnce) (by decide) (by decide) (by decide) (by decide)).2.2.1⟩

/-! ### Sequences of requests -/

/-- Where a call sits in a list of calls that was extended by one. -/
theorem split_snoc {α : Type} (l pre post : List α) (x y : α)
    (h : l ++ [x] = pre ++ y :: post) :
    (post = [] ∧ pre = l ∧ y = x) ∨ ∃ post', post = post' ++ [x] ∧ l = pre ++ y :: post' := by
  rcases List.eq_nil_or_concat post with hp | ⟨post', z, hp⟩
  · subst hp
    have h2 := List.append_inj' h (by simp)
    left
    exact ⟨rfl, h2.1.symm, by simpa using h2.2.symm⟩
  · right
    subst hp
    have h3 : l ++ [x] = (pre ++ y :: post') ++ [z] := by simpa using h
    have h2 := List.append_inj' h3 (by simp)
    have hz : x = z := by simpa using h2.2
    subst hz
    exact ⟨post', by simp, h2.1⟩

/-- No call and a clear flag agree. -/
theorem balanced_nil : Balanced [] false := by
  refine ⟨by simp, by simp [completedRecords, completedStops], ?_, ?_⟩ <;>
    intro pre o post h <;> simp at h

/-- A `record()` invoked with the flag clear, the flag then set when it
completed, keeps the agreement. -/
theorem balanced_record (calls : List BaseCall) (o : Outcome) (h : Balanced calls false) :
    Balanced (calls ++ [BaseCall.record o]) (decide (o = Outcome.completed)) := by
  obtain ⟨-, h2, h3, h4⟩ := h
  have h2 := h2 rfl
  refine ⟨?_, ?_, ?_, ?_⟩
  · intro ho
    have ho : o = Outcome.completed := by simpa using ho
    subst ho
    simp [completedRecords, completedStops, List.count_append] at h2 ⊢
    omega
  · intro ho
    have ho : o ≠ Outcome.completed := by simpa using ho
    have hc : List.count (BaseCall.record Outcome.completed) [BaseCall.record o] = 0 :=
      List.count_eq_zero_of_not_mem (by simp [Ne.symm ho])
    simp [completedRecords, completedStops, List.count_append, hc] at h2 ⊢
    omega
  · intro pre o2 post hs
    rcases split_snoc _ _ _ _ _ hs with ⟨-, hpre, -⟩ | ⟨post', -, hl⟩
    · rw [hpre]; exact h2
    · exact h3 _ _ _ hl
  · intro pre o2 post hs
    rcases split_snoc _ _ _ _ _ hs with ⟨-, -, hy⟩ | ⟨post', -, hl⟩
    · cases hy
    · exact h4 _ _ _ hl

/-- A `stop()` invoked with the flag set, the flag then cleared when it
completed, keeps the agreement. -/
theorem balanced_stop (calls : List BaseCall) (o : Outcome) (h : Balanced calls true) :
    Balanced (calls ++ [BaseCall.stop o]) (!decide (o = Outcome.completed)) := by
  obtain ⟨h1, -, h3, h4⟩ := h
  have h1 := h1 rfl
  refine ⟨?_, ?_, ?_, ?_⟩
  · intro ho
    have ho : o ≠ Outcome.completed := by simpa using ho
    have hc : List.count (BaseCall.stop Outcome.completed) [BaseCall.stop o] = 0 :=
      List.count_eq_zero_of_not_mem (by simp [Ne.symm ho])
    simp [completedRecords, completedStops, List.count_append, hc] at h1 ⊢
    omega
  · intro ho
    have ho : o = Outcome.completed := by simpa using ho
    subst ho
    simp [completedRecords, completedStops, List.count_append] at h1 ⊢
    omega
  · intro pre o2 post hs
    rcases split_snoc _ _ _ _ _ hs with ⟨-, -, hy⟩ | ⟨post', -, hl⟩
    · cases hy
    · exact h3 _ _ _ hl
  · intro pre o2 post hs
    rcases split_snoc _ _ _ _ _ hs with ⟨-, hpre, -⟩ | ⟨post', -, hl⟩
    · rw [hpre]; exact h1
    · exact h4 _ _ _ hl

/-- `startRecording` keeps the flag and the calls in agreement. -/
theorem startRecording_balanced (self : ComposableRecorder) (res : Response) (o : Outcome)
    (h : Balanced self.calls self.isRecording_) :
    Balanced (self.startRecording res o).self.calls
      (self.startRecording res o).self.isRecording_ := by
  cases hrec : self.isRecording_
  · rw [hrec] at h
    have hb := balanced_record _ o h
    cases o <;> simpa [startRecording, hrec] using hb
  · simpa [startRecording, hrec] using h

/-- `stopRecording` keeps the flag and the calls in agreement. -/
theorem stopRecording_balanced (self : ComposableRecorder) (res : Response) (o : Outcome)
    (h : Balanced self.calls self.isRecording_) :
    Balanced (self.stopRecording res o).self.calls
      (self.stopRecording res o).self.isRecording_ := by
  cases hrec : self.isRecording_
  · simpa [stopRecording, hrec] using h
  · rw [hrec] at h
    have hb := balanced_stop _ o h
    cases o <;> simpa [stopRecording, hrec] using hb

/-- Serving requests keeps the flag and the calls in agreement. -/
theorem serve_balanced (reqs : List (Request × Outcome)) :
    ∀ self : ComposableRecorder, Balanced self.calls self.isRecording_ →
      Balanced (self.serve reqs).1.calls (self.serve reqs).1.isRecording_ := by
  induction reqs with
  | nil => intro self h; simpa [serve] using h
  | cons a rest ih =>
    intro self h
    obtain ⟨rq, o⟩ := a
    cases hd : self.dispatch rq o with
    | none => simpa [serve, hd] using ih self h
    | some hh =>
      have hb : Balanced hh.self.calls hh.self.isRecording_ := by
        cases rq
        · by_cases hs : self.start_srv_.isSome = true
          · simp [dispatch, hs] at hd
            rw [← hd]; exact startRecording_balanced _ _ _ h
          · simp [dispatch, hs] at hd
        · by_cases hs : self.stop_srv_.isSome = true
          · simp [dispatch, hs] at hd
            rw [← hd]; exact stopRecording_balanced _ _ _ h
          · simp [dispatch, hs] at hd
      simpa [serve, hd] using ih hh.self hb

/-- A handler answers `success = true` exactly when it flips the flag, and
it leaves the services as they are. -/
theorem dispatch_step (self : ComposableRecorder) (rq : Request) (o : Outcome) (h : Handled)
    (hd : self.dispatch rq o = some h) :
    h.self.start_srv_ = self.start_srv_ ∧ h.self.stop_srv_ = self.stop_srv_ ∧
      ((h.res.success = true ∧ rq = (if self.isRecording_ then Request.stop else Request.start) ∧
          h.self.isRecording_ = !self.isRecording_) ∨
        (h.res.success = false ∧ h.self.isRecording_ = self.isRecording_)) := by
  cases rq
  · by_cases hs : self.start_srv_.isSome = true
    · simp [dispatch, hs] at hd
      subst hd
      cases hrec : self.isRecording_ <;> cases o <;> simp [startRecording, hrec]
    · simp [dispatch, hs] at hd
  · by_cases hs : self.stop_srv_.isSome = true
    · simp [dispatch, hs] at hd
      subst hd
      cases hrec : self.isRecording_ <;> cases o <;> simp [stopRecording, hrec]
    · simp [dispatch, hs] at hd

/-- The successful requests of a served sequence alternate. -/
theorem serve_alternating (reqs : List (Request × Outcome)) :
    ∀ self : ComposableRecorder, alternating self.isRecording_ (successes (self.serve reqs).2) := by
  induction reqs with
  | nil => intro self; simp [serve, successes, alternating]
  | cons a rest ih =>
    intro self
    obtain ⟨rq, o⟩ := a
    cases hd : self.dispatch rq o with
    | none => simpa [serve, hd] using ih self
    | some hh =>
      obtain ⟨-, -, hstep⟩ := dispatch_step self rq o hh hd
      have ih2 := ih hh.self
      rcases hstep with ⟨h1, h2, h3⟩ | ⟨h1, h3⟩
      · rw [h3] at ih2
        simp only [serve, hd, successes, List.filter_cons, h1, if_true, List.map_cons,
          alternating]
        exact ⟨h2, ih2⟩
      · rw [h3] at ih2
        simpa [serve, hd, successes, List.filter_cons, h1] using ih2

/-- With both services created, every request is handed to a handler. -/
theorem serve_requests (reqs : List (Request × Outcome)) :
    ∀ self : ComposableRecorder, self.start_srv_.isSome = true → self.stop_srv_.isSome = true →
      (self.serve reqs).2.map (fun x => x.req) = reqs.map (fun r => r.1) := by
  induction reqs with
  | nil => intro self _ _; simp [serve]
  | cons a rest ih =>
    intro self h1 h2
    obtain ⟨rq, o⟩ := a
    cases hd : self.dispatch rq o with
    | none => cases rq <;> simp [dispatch, h1, h2] at hd
    | some hh =>
      obtain ⟨g1, g2, -⟩ := dispatch_step self rq o hh hd
      have ih2 := ih hh.self (by rw [g1]; exact h1) (by rw [g2]; exact h2)
      simp [serve, hd, ih2]

/-- An alternating list, read by position. -/
theorem alternating_get (l : List Request) :
    ∀ (recording : Bool), alternating recording l → ∀ (i : Nat) (hi : i < l.length),
      l.get ⟨i, hi⟩ =
        if (i % 2 = 0 ↔ recording = false) then Request.start else Request.stop := by
  induction l with
  | nil => intro _ _ i hi; simp at hi
  | cons r rs ih =>
    intro recording h i hi
    obtain ⟨h1, h2⟩ := h
    cases i with
    | zero => cases recording <;> simp [h1]
    | succ j =>
      have hj : j < rs.length := by simpa using hi
      have := ih (!recording) h2 j hj
      simp only [List.get_cons_succ] at this ⊢
      rw [this]
      have hparity : j % 2 = 0 ∨ j % 2 = 1 := by omega
      rcases hparity with hp | hp <;> cases recording <;>
        simp [hp, Nat.succ_mod_two_eq_zero_iff, Nat.add_mod]

/-- What the constructor leaves when it does not start at once: no
base-class call and the flag clear; and both services when it returns. -/
theorem new_idle (e : Env)
    (h : declare_parameter e.params.start_recording_immediately false = false) :
    (ComposableRecorder.new e).self.calls = [] ∧
      (ComposableRecorder.new e).self.isRecording_ = false ∧
      ((ComposableRecorder.new e).exit = Exit.returned →
        (ComposableRecorder.new e).self.start_srv_ = some "start_recording" ∧
        (ComposableRecorder.new e).self.stop_srv_ = some "stop_recording") := by
  obtain ⟨c1, -, -, c4, -, -⟩ := set_uri_fields e
  obtain ⟨-, r1, -, -, r4, -⟩ := set_record_options_fields e
    ((ComposableRecorder.base.set_storage e.params).set_uri e)
  rcases new_eq e with ⟨hp, hn⟩ | ⟨-, hn⟩
  · rw [hn]
    refine ⟨by rw [r1, c1], by rw [r4, c4], ?_⟩
    intro hret
    rw [hp] at hret
    cases hret
  · obtain ⟨s1, -, s3, s4⟩ := start_or_serve_services e
      (((ComposableRecorder.base.set_storage e.params).set_uri e).set_record_options e).self h
    rw [hn]
    exact ⟨by rw [s1, r1, c1], by rw [(start_or_serve_fields e _).2.1, r4, c4],
      fun _ => ⟨s3, s4⟩⟩

/-- C9: for a node built with `start_recording_immediately = false` and
every sequence of start and stop requests, with any outcome of `record()`
and `stop()`: `isRecording_` is set exactly when one more `record()` than
`stop()` has completed and clear exactly when as many have; `record()` is
invoked only with as many completed `record()` as `stop()` before it;
`stop()` only with one more, so after a completed `record()`; the requests
answered with `success = true` are start, stop, start, ... in turn; and,
the constructor having returned, every request of the sequence is handed to
its handler. -/
theorem isRecording_tracks_calls (e : Env)
    (h : declare_parameter e.params.start_recording_immediately false = false)
    (reqs : List (Request × Outcome)) :
    (((ComposableRecorder.new e).self.serve reqs).1.isRecording_ = true ↔
        completedRecords ((ComposableRecorder.new e).self.serve reqs).1.calls =
          completedStops ((ComposableRecorder.new e).self.serve reqs).1.calls + 1) ∧
      (((ComposableRecorder.new e).self.serve reqs).1.isRecording_ = false ↔
        completedRecords ((ComposableRecorder.new e).self.serve reqs).1.calls =
          completedStops ((ComposableRecorder.new e).self.serve reqs).1.calls) ∧
      (∀ pre o post,
        ((ComposableRecorder.new e).self.serve reqs).1.calls = pre ++ BaseCall.record o :: post →
          completedRecords pre = completedStops pre) ∧
      (∀ pre o post,
        ((ComposableRecorder.new e).self.serve reqs).1.calls = pre ++ BaseCall.stop o :: post →
          completedRecords pre = completedStops pre + 1 ∧
            BaseCall.record Outcome.completed ∈ pre) ∧
      (∀ (i : Nat) (hi : i < (successes ((ComposableRecorder.new e).self.serve reqs).2).length),
        (successes ((ComposableRecorder.new e).self.serve reqs).2).get ⟨i, hi⟩ =
          if i % 2 = 0 then Request.start else Request.stop) ∧
      ((ComposableRecorder.new e).exit = Exit.returned →
        ((ComposableRecorder.new e).self.serve reqs).2.map (fun x => x.req) =
          reqs.map (fun r => r.1)) := by
  obtain ⟨n1, n2, n3⟩ := new_idle e h
  have hb0 : Balanced (ComposableRecorder.new e).self.calls
      (ComposableRecorder.new e).self.isRecording_ := by
    rw [n1, n2]; exact balanced_nil
  obtain ⟨b1, b2, b3, b4⟩ := serve_balanced reqs _ hb0
  have halt := serve_alternating reqs (ComposableRecorder.new e).self
  rw [n2] at halt
  refine ⟨⟨b1, ?_⟩, ⟨b2, ?_⟩, b3, ?_, ?_, ?_⟩
  · intro hc
    cases hrec : ((ComposableRecorder.new e).self.serve reqs).1.isRecording_
    · have := b2 hrec
      omega
    · rfl
  · intro hc
    cases hrec : ((ComposableRecorder.new e).self.serve reqs).1.isRecording_
    · rfl
    · have := b1 hrec
      omega
  · intro pre o post hs
    have hcount := b4 pre o post hs
    refine ⟨hcount, ?_⟩
    have hpos : 0 < List.count (BaseCall.record Outcome.completed) pre := by
      unfold completedRecords at hcount
      omega
    exact List.count_pos_iff.mp hpos
  · intro i hi
    have := alternating_get _ false halt i hi
    simpa using this
  · intro hret
    obtain ⟨n4, n5⟩ := n3 hret
    exact serve_requests reqs _ (by rw [n4]; rfl) (by rw [n5]; rfl)

/-- C9 at a sample run (a failed start, two starts, two stops, a start) on
a node built with no override. -/
theorem isRecording_tracks_calls_witness :
    successes ((ComposableRecorder.new (sampleEnv {})).self.serve sampleRequests).2
        = [Request.start, Request.stop, Request.start] ∧
      (((ComposableRecorder.new (sampleEnv {})).self.serve sampleRequests).1.isRecording_
          = true ↔
        completedRecords ((ComposableRecorder.new (sampleEnv {})).self.serve
            sampleRequests).1.calls =
          completedStops ((ComposableRecorder.new (sampleEnv {})).self.serve
            sampleRequests).1.calls + 1) ∧
      ((ComposableRecorder.new (sampleEnv {})).self.serve sampleRequests).2.map
          (fun x => x.req) = sampleRequests.map (fun r => r.1) :=
  ⟨by decide, (isRecording_tracks_calls (sampleEnv {}) (by decide) sampleRequests).1,
    (isRecording_tracks_calls (sampleEnv {}) (by decide) sampleRequests).2.2.2.2.2
      (by decide)⟩

end rosbag2_composable_recorder
